import Mathlib

/-!
Shallow embedding of `src/lib/ZKGroupMembership.js` (the zk-groupmembership
package).  JavaScript promises are modelled as `Settled` values: a settlement
delay (in milliseconds of scheduler time, relative to the instant the promise
chain is built) together with an `Except` outcome (resolution or rejection).
JavaScript `Error` objects carry only their message here, which is all the
source ever builds or inspects.  The external ZooKeeper client is modelled by
a `ClientBehavior` giving the timed outcome of each call, and the calls a
Manager operation issues are recorded explicitly so that theorems can speak
about what was (or was not) sent to the coordination service.
-/

/-- A JavaScript `Error`, identified by its message, the only attribute the
source constructs or distinguishes (`new Error('Timeout')`, etc.). -/
structure JSError where
  message : String
deriving DecidableEq, Repr

/-- The JavaScript values that can appear as member ids and document fields in
this library: strings, (integral) numbers, booleans, `null` and `undefined`. -/
inductive JSValue where
  | str (s : String)
  | num (n : Int)
  | bool (b : Bool)
  | null
  | undefined
deriving DecidableEq, Repr, BEq

/-- JavaScript `s.includes(c)` for a one-character needle, as used by
`getMemberPath` with `'/'`: does the string contain the character. -/
def jsIncludes (s : String) (c : Char) : Bool :=
  s.data.contains c

/-- JavaScript `String(v)` coercion on the modelled values. -/
def jsStringOf : JSValue → String
  | .str s => s
  | .num n => toString n
  | .bool b => cond b "true" "false"
  | .null => "null"
  | .undefined => "undefined"

/-- A flat JavaScript object (key/value document), as used for member data. -/
abbrev Doc := List (String × JSValue)

/-- JavaScript property assignment `d[k] = v`: overwrite the existing entry in
place, else append a new one. -/
def setField : Doc → String → JSValue → Doc
  | [], k, v => [(k, v)]
  | (k₀, v₀) :: rest, k, v =>
      if k₀ = k then (k, v) :: rest else (k₀, v₀) :: setField rest k v

/-- Property lookup `d[k]`. -/
def getField : Doc → String → Option JSValue
  | [], _ => none
  | (k₀, v₀) :: rest, k => if k₀ = k then some v₀ else getField rest k

/-- Escape a string for JSON output. -/
def escapeJSON (s : String) : String :=
  s.foldl (fun acc c =>
    if c = '"' then acc ++ "\\\""
    else if c = '\\' then acc ++ "\\\\"
    else acc.push c) ""

/-- `JSON.stringify` of a single value. -/
def serializeJSValue : JSValue → String
  | .str s => "\"" ++ escapeJSON s ++ "\""
  | .num n => toString n
  | .bool b => cond b "true" "false"
  | .null => "null"
  | .undefined => "null"

/-- `JSON.stringify` of a flat object (fields holding `undefined` are
omitted, as in JavaScript). -/
def serializeDoc (d : Doc) : String :=
  "\x7b" ++ String.intercalate ","
    ((d.filter (fun kv => !(kv.2 == JSValue.undefined))).map
      (fun kv => "\"" ++ escapeJSON kv.1 ++ "\":" ++ serializeJSValue kv.2))
  ++ "\x7d"

deriving instance DecidableEq for Except

/-- A settled promise: the delay (scheduler time) at which it settles and its
outcome, `.ok` for resolution, `.error` for rejection.  A promise chain has a
single settlement, so double resolution is unrepresentable. -/
structure Settled (α : Type) where
  time : Nat
  result : Except JSError α
deriving DecidableEq, Repr

/-- The error built by `new Error('Timeout')` in `withTimeout`. -/
def timeoutError : JSError := ⟨"Timeout"⟩

/-- The error built by `new Error('Illegal member ID')`. -/
def illegalMemberIdError : JSError := ⟨"Illegal member ID"⟩

/-- The error built by `new Error('Disconnected')` in the state listener. -/
def disconnectedError : JSError := ⟨"Disconnected"⟩

/-- Source `resolverAsCallback` (scalar form): the node-style callback
`(err, value)` rejects with `err` itself when `err` is truthy, otherwise
resolves with `value`.  No wrapping of the error takes place. -/
def resolverAsCallback (err : Option JSError) (value : α) : Except JSError α :=
  match err with
  | some e => Except.error e
  | none => Except.ok value

/-- Source `resolverAsCallback` with `array = true`: `(err, ...values)`
rejects with `err` itself when truthy, otherwise resolves the list of
remaining arguments. -/
def resolverAsCallbackArray (err : Option JSError) (values : List α) :
    Except JSError (List α) :=
  match err with
  | some e => Except.error e
  | none => Except.ok values

/-- Source `delay(timeout)`: a promise resolved (with `undefined`) after
`timeout` milliseconds. -/
def delay (timeout : Nat) : Settled Unit :=
  ⟨timeout, Except.ok ()⟩

/-- The timer branch of `withTimeout`:
`delay(timeout).then(() => Promise.reject(new Error('Timeout')))`,
a promise rejecting with the Timeout error when the delay fires. -/
def delayedTimeout (timeout : Nat) : Settled α :=
  ⟨(delay timeout).time, Except.error timeoutError⟩

/-- `Promise.race([a, b])`: settles with whichever input settles first; on a
tie the earlier element of the array wins. -/
def raceTimed (a b : Settled α) : Settled α :=
  if a.time ≤ b.time then a else b

/-- Source `withTimeout(promise, timeout)`: the promise itself when `timeout`
is `undefined` (`none`), otherwise the race of the promise against the
rejected-after-`timeout` timer branch. -/
def withTimeout (promise : Settled α) : Option Nat → Settled α
  | none => promise
  | some timeout => raceTimed promise (delayedTimeout timeout)

/-- Source `timedPromiseByCallback(executor, timeout)`: build a promise whose
settlement is the executor's single node-style callback invocation routed
through `resolverAsCallback` (error argument rejects raw, value argument
resolves), then apply `withTimeout`.  The callback invocation is given as its
delay together with its `(err, value)` arguments. -/
def timedPromiseByCallback (time : Nat) (err : Option JSError) (value : α)
    (timeout : Option Nat) : Settled α :=
  withTimeout ⟨time, resolverAsCallback err value⟩ timeout

/-- ZooKeeper `stat` metadata: opaque passthrough in this library. -/
abbrev Stat := Nat

/-- The timed outcome of each external coordination-service call, as routed
through `resolverAsCallback`: `.ok` when the client called back with a value,
`.error e` when it called back with error `e`. -/
structure ClientBehavior where
  mkdirp : String → Settled Unit
  getChildren : String → Settled (List String)
  create : String → String → Settled Unit
  getData : String → Settled (String × Stat)

/-- One call issued to the external client, as observable by the client.
`getChildren` records the watcher argument (the relay reference, or `none`
for JavaScript `null`); `onState` records registering the connection-state
listener. -/
inductive ClientCall where
  | mkdirp (path : String)
  | getChildren (path : String) (watcher : Option Nat)
  | create (path : String) (payload : String)
  | getData (path : String)
  | onState
deriving DecidableEq, Repr

/-- An event emitted on the Manager (an `EventEmitter`). -/
inductive Emitted where
  | members (l : List String)
  | error (e : JSError)
deriving DecidableEq, Repr

/-- The `ZKGroupMembership` instance state.  The relay closure installed by
`startMonitor` is identified by an allocation number (`membersChangedListener`
holds `some r` once installed, `none` for the initial `null`); function
identity is what the claims about watch re-arming are about. -/
structure ZKGroupMembership where
  groupPath : String
  timeout : Option Nat
  setupTimeout : Option Nat
  membersChangedListener : Option Nat
deriving DecidableEq, Repr

/-- The constructor: stores the group path and timeouts and initialises
`_membersChangedListener` to `null`. -/
def mkZKGroupMembership (groupPath : String) (timeout setupTimeout : Option Nat) :
    ZKGroupMembership :=
  ⟨groupPath, timeout, setupTimeout, none⟩

/-- Source `getMemberPath(id)`: coerce a non-string id with `String(id)`,
return `undefined` when the coerced id contains a slash, otherwise
`[groupPath, id].join('/')`. -/
def getMemberPath (m : ZKGroupMembership) (id : JSValue) : Option String :=
  let s := match id with
    | .str s => s
    | v => jsStringOf v
  if jsIncludes s '/' then none else some (m.groupPath ++ "/" ++ s)

/-- Source `setup()`: `mkdirp` at the group path through
`timedPromiseByCallback` with the setup timeout, then resolve with `this`. -/
def setup (m : ZKGroupMembership) (cb : ClientBehavior) :
    Settled ZKGroupMembership :=
  let p := withTimeout (cb.mkdirp m.groupPath) m.setupTimeout
  ⟨p.time, p.result.map (fun _ => m)⟩

/-- Source `getMembers()` settlement: `getChildren` at the group path, watched
by the current `_membersChangedListener`, through `timedPromiseByCallback`
with the operation timeout.  (The call itself, with its watcher argument, is
recorded by `getMembersSys` below.) -/
def getMembersSettled (m : ZKGroupMembership) (cb : ClientBehavior) :
    Settled (List String) :=
  withTimeout (cb.getChildren m.groupPath) m.timeout

/-- The full monitored system: the Manager instance, the set of one-shot
watches currently armed at the coordination service for the group path
(identified by relay reference; per the service contract a watcher is
delivered at most once per change, so re-registering the same function is
idempotent), and the allocation counter for relay closures. -/
structure Sys where
  mgr : ZKGroupMembership
  armed : List Nat
  nextRef : Nat
deriving DecidableEq, Repr

/-- The system state right after `new ZKGroupMembership(...)`: no relay
installed, no watch armed. -/
def initSys (groupPath : String) (timeout setupTimeout : Option Nat) : Sys :=
  ⟨mkZKGroupMembership groupPath timeout setupTimeout, [], 0⟩

/-- The coordination service arms the supplied watcher (if any) as a one-shot
watch; arming an already-armed watcher function again is a no-op. -/
def armWatch (armed : List Nat) : Option Nat → List Nat
  | none => armed
  | some r => if r ∈ armed then armed else armed ++ [r]

/-- Source `getMembers()` as a system step: issues one `getChildren` call
carrying the current `_membersChangedListener` as watcher (arming it when
non-null) and yields the settled promise. -/
def getMembersSys (s : Sys) (cb : ClientBehavior) :
    Sys × List ClientCall × Settled (List String) :=
  (⟨s.mgr, armWatch s.armed s.mgr.membersChangedListener, s.nextRef⟩,
   [ClientCall.getChildren s.mgr.groupPath s.mgr.membersChangedListener],
   getMembersSettled s.mgr cb)

/-- One invocation of the relay closure installed by `startMonitor`:
`this.getMembers().then(l => emit('members', l), e => emit('error', e))`. -/
def relayBody (s : Sys) (cb : ClientBehavior) :
    Sys × List ClientCall × List Emitted :=
  let r := getMembersSys s cb
  (r.1, r.2.1,
   [match r.2.2.result with
    | Except.ok l => Emitted.members l
    | Except.error e => Emitted.error e])

/-- Source `startMonitor()`: when `_membersChangedListener` is null, allocate
the relay closure, store it, invoke it once, and register the
connection-state listener; otherwise do nothing.  Returns `this` (the
Manager in the resulting state). -/
def startMonitorSys (s : Sys) (cb : ClientBehavior) :
    Sys × List ClientCall × List Emitted :=
  match s.mgr.membersChangedListener with
  | some _ => (s, [], [])
  | none =>
      let r := s.nextRef
      let installed : Sys :=
        ⟨{ s.mgr with membersChangedListener := some r }, s.armed, r + 1⟩
      let fired := relayBody installed cb
      (fired.1, fired.2.1 ++ [ClientCall.onState], fired.2.2)

/-- The coordination service delivers one structural change: every armed
one-shot watch fires exactly once (and is disarmed before firing); each
firing runs the relay closure, which re-fetches and re-arms. -/
def fireArmed (cb : ClientBehavior) : Nat → Sys → Sys × List ClientCall × List Emitted
  | 0, s => (s, [], [])
  | k + 1, s =>
      let first := relayBody s cb
      let rest := fireArmed cb k first.1
      (rest.1, first.2.1 ++ rest.2.1, first.2.2 ++ rest.2.2)

/-- A structural change under the group path: fire all currently armed
watches. -/
def changeSys (s : Sys) (cb : ClientBehavior) :
    Sys × List ClientCall × List Emitted :=
  fireArmed cb s.armed.length ⟨s.mgr, [], s.nextRef⟩

/-- External stimuli driving a monitored Manager: a `startMonitor()` call, a
structural change under the group path, or a direct `getMembers()` call. -/
inductive Stimulus where
  | startMonitor
  | change
  | getMembersCall
deriving DecidableEq, Repr

/-- One stimulus step of the system. -/
def stepSys (cb : ClientBehavior) (s : Sys) :
    Stimulus → Sys × List ClientCall × List Emitted
  | .startMonitor => startMonitorSys s cb
  | .change => changeSys s cb
  | .getMembersCall =>
      let r := getMembersSys s cb
      (r.1, r.2.1, [])

/-- Run a list of stimuli, accumulating the client calls issued and the
events emitted. -/
def runSys (cb : ClientBehavior) (s : Sys) :
    List Stimulus → Sys × List ClientCall × List Emitted
  | [] => (s, [], [])
  | st :: rest =>
      let first := stepSys cb s st
      let later := runSys cb first.1 rest
      (later.1, first.2.1 ++ later.2.1, first.2.2 ++ later.2.2)

/-- Count the `members` events in an emission trace. -/
def countMembers (es : List Emitted) : Nat :=
  es.countP (fun e => match e with | .members _ => true | .error _ => false)

/-- A heap of JavaScript objects: documents addressed by reference. -/
abbrev Ref := Nat

/-- The object store; `Ref`s index into it. -/
abbrev Store := List Doc

/-- Dereference a document. -/
def storeGet (st : Store) (r : Ref) : Doc := st.getD r []

/-- Overwrite the document behind a reference. -/
def storeSet (st : Store) (r : Ref) (d : Doc) : Store := st.set r d

/-- The ambient JavaScript platform facts at the moment of a call: the value
`uuid()` would return and the value `Date.now()` would return (epoch ms). -/
structure Platform where
  uuid : String
  now : Nat
deriving DecidableEq, Repr

/-- The `if (typeof id === 'undefined') id = uuid();` step of
`registerMember`. -/
def resolvedId (pf : Platform) (idArg : JSValue) : JSValue :=
  match idArg with
  | .undefined => .str pf.uuid
  | v => v

/-- Source `registerMember(id, data = {})`.  `idArg = .undefined` models a
call without an id (then `uuid()` is drawn from the platform); `dataArg`
is the caller's object reference, or `none` when the `{}` default applies
(allocating a fresh empty object).  The outer `Except` is the synchronous
throw channel: `.ok` means the call returned a promise without throwing.
Returns the store after the in-place `data.registrationTimeUTC = Date.now()`
assignment, the client calls issued, and the promise resolving with the
`{id, data}` pair (the data as an object reference). -/
def registerMember (m : ZKGroupMembership) (cb : ClientBehavior) (pf : Platform)
    (idArg : JSValue) (dataArg : Option Ref) (store : Store) :
    Except JSError (Store × List ClientCall × Settled (JSValue × Ref)) :=
  let alloc : Ref × Store :=
    match dataArg with
    | some r => (r, store)
    | none => (store.length, store ++ [[]])
  let dataRef := alloc.1
  let store₀ := alloc.2
  let id : JSValue := resolvedId pf idArg
  match getMemberPath m id with
  | none => Except.ok (store₀, [], ⟨0, Except.error illegalMemberIdError⟩)
  | some path =>
      let store₁ :=
        storeSet store₀ dataRef
          (setField (storeGet store₀ dataRef) "registrationTimeUTC" (.num pf.now))
      let asBuffer := serializeDoc (storeGet store₁ dataRef)
      let p := withTimeout (cb.create path asBuffer) m.timeout
      Except.ok (store₁, [ClientCall.create path asBuffer],
        ⟨p.time, p.result.map (fun _ => (id, dataRef))⟩)

/-- Source `getMemberData(id)`: derive the member path (rejecting, not
throwing, on an illegal id and issuing no client call), else `getData` with
the operation timeout (array-form callback: `[buffer, stat]`), then
`JSON.parse` the payload — modelled by the platform's `jsonParse`, a throw
inside the `.then` callback becoming a rejection — and resolve with
`{id, data, stat}`.  The outer `Except` is the synchronous throw channel. -/
def getMemberData (m : ZKGroupMembership) (cb : ClientBehavior)
    (jsonParse : String → Except JSError Doc) (id : JSValue) :
    Except JSError (List ClientCall × Settled (JSValue × Doc × Stat)) :=
  match getMemberPath m id with
  | none => Except.ok ([], ⟨0, Except.error illegalMemberIdError⟩)
  | some path =>
      let p := withTimeout (cb.getData path) m.timeout
      Except.ok ([ClientCall.getData path],
        ⟨p.time,
         p.result.bind (fun bs =>
           (jsonParse bs.1).map (fun d => (id, d, bs.2)))⟩)

/-! Helper lemmas shared by the claim theorems. -/

/-- A settlement time beats an optional deadline when the deadline is absent
or strictly later. -/
def beatsDeadline (t : Nat) : Option Nat → Prop
  | none => True
  | some d => t < d

theorem withTimeout_of_le {α : Type} (p : Settled α) (d : Nat) (h : p.time ≤ d) :
    withTimeout p (some d) = p := by
  simp [withTimeout, raceTimed, delayedTimeout, delay, h]

theorem withTimeout_of_gt {α : Type} (p : Settled α) (d : Nat) (h : d < p.time) :
    withTimeout p (some d) = ⟨d, Except.error timeoutError⟩ := by
  simp [withTimeout, raceTimed, delayedTimeout, delay, Nat.not_le.mpr h]

theorem withTimeout_beats {α : Type} (p : Settled α) (tmo : Option Nat)
    (h : beatsDeadline p.time tmo) : withTimeout p tmo = p := by
  cases tmo with
  | none => rfl
  | some d => exact withTimeout_of_le p d (Nat.le_of_lt h)

theorem getMemberPath_eq (m : ZKGroupMembership) (id : JSValue) :
    getMemberPath m id =
      if jsIncludes (jsStringOf id) '/' then none
      else some (m.groupPath ++ "/" ++ jsStringOf id) := by
  cases id <;> rfl

theorem resolvedId_of_ne (pf : Platform) (idArg : JSValue)
    (h : idArg ≠ JSValue.undefined) : resolvedId pf idArg = idArg := by
  cases idArg <;> first | rfl | exact absurd rfl h

/-- C2: if the underlying operation settles before the deadline, the produced
result is the operation's own settlement; if the deadline elapses first, the
produced result is a rejection with the Timeout error (the operation's later
settlement no longer appearing, the race having one outcome); if the deadline
is `undefined`, no timeout is applied and the operation runs to natural
completion. -/
theorem C2_withTimeout_contract {α : Type} (p : Settled α) (d : Nat) :
    withTimeout p none = p ∧
    (p.time < d → withTimeout p (some d) = p) ∧
    (d < p.time → withTimeout p (some d) = ⟨d, Except.error timeoutError⟩) :=
  ⟨rfl, fun h => withTimeout_of_le p d (Nat.le_of_lt h),
   fun h => withTimeout_of_gt p d h⟩

/-- Witness for C2 at concrete inputs: a call settling at 3 beats deadline 5
and keeps its own outcome; a call settling at 7 loses to deadline 5 and the
result is the Timeout rejection at time 5. -/
theorem C2_withTimeout_contract_witness :
    withTimeout (⟨3, Except.ok 42⟩ : Settled Nat) (some 5) = ⟨3, Except.ok 42⟩ ∧
    withTimeout (⟨7, Except.ok 42⟩ : Settled Nat) (some 5)
      = ⟨5, Except.error timeoutError⟩ :=
  ⟨(C2_withTimeout_contract ⟨3, Except.ok 42⟩ 5).2.1 (by decide),
   (C2_withTimeout_contract ⟨7, Except.ok 42⟩ 5).2.2 (by decide)⟩

/-- C8: a deadline of zero is already expired — any operation that is not
already complete at call time (positive settlement delay) produces the
Timeout rejection at time 0, without waiting for the operation's response;
an operation already complete synchronously (delay 0) wins the fair race. -/
theorem C8_zero_deadline {α : Type} (p : Settled α) :
    (0 < p.time → withTimeout p (some 0) = ⟨0, Except.error timeoutError⟩) ∧
    (p.time = 0 → withTimeout p (some 0) = p) :=
  ⟨fun h => withTimeout_of_gt p 0 h,
   fun h => withTimeout_of_le p 0 (Nat.le_of_eq h)⟩

/-- Witness for C8: deadline 0 times out an operation settling at 2, and lets
an already-settled operation through. -/
theorem C8_zero_deadline_witness :
    withTimeout (⟨2, Except.ok "x"⟩ : Settled String) (some 0)
      = ⟨0, Except.error timeoutError⟩ ∧
    withTimeout (⟨0, Except.ok "x"⟩ : Settled String) (some 0)
      = ⟨0, Except.ok "x"⟩ :=
  ⟨(C8_zero_deadline ⟨2, Except.ok "x"⟩).1 (by decide),
   (C8_zero_deadline ⟨0, Except.ok "x"⟩).2 rfl⟩

/-- C6: `getMemberPath` is a pure function of the group path and the id; it
coerces the id to its string form, returns `undefined` (`none`, not an
exception) when that string contains the path separator, and otherwise
returns exactly `<groupPath>/<id>`. -/
theorem C6_getMemberPath_pure (m : ZKGroupMembership) (id : JSValue) :
    (jsIncludes (jsStringOf id) '/' = true → getMemberPath m id = none) ∧
    (jsIncludes (jsStringOf id) '/' = false →
      getMemberPath m id = some (m.groupPath ++ "/" ++ jsStringOf id)) := by
  constructor <;> intro h <;> rw [getMemberPath_eq] <;> simp [h]

/-- Witness for C6: a slash-bearing id (including one arising from `String()`
coercion of a non-string) yields `none`; a clean id yields the joined path. -/
theorem C6_getMemberPath_pure_witness :
    getMemberPath (mkZKGroupMembership "/groups/default" none none)
      (JSValue.str "a/b") = none ∧
    getMemberPath (mkZKGroupMembership "/groups/default" none none)
      (JSValue.num 17) = some "/groups/default/17" :=
  ⟨(C6_getMemberPath_pure (mkZKGroupMembership "/groups/default" none none)
      (JSValue.str "a/b")).1 (by decide),
   (C6_getMemberPath_pure (mkZKGroupMembership "/groups/default" none none)
      (JSValue.num 17)).2 (by decide)⟩

/-! Shape lemmas for `registerMember` and store accesses. -/

theorem registerMember_eq_of_path (m : ZKGroupMembership) (cb : ClientBehavior)
    (pf : Platform) (idArg : JSValue) (dataArg : Option Ref) (store : Store)
    (path : String)
    (hpath : getMemberPath m (resolvedId pf idArg) = some path) :
    registerMember m cb pf idArg dataArg store =
      (let alloc : Ref × Store :=
        match dataArg with
        | some r => (r, store)
        | none => (store.length, store ++ [[]])
      let store₁ :=
        storeSet alloc.2 alloc.1
          (setField (storeGet alloc.2 alloc.1) "registrationTimeUTC"
            (.num pf.now))
      let asBuffer := serializeDoc (storeGet store₁ alloc.1)
      let p := withTimeout (cb.create path asBuffer) m.timeout
      Except.ok (store₁, [ClientCall.create path asBuffer],
        ⟨p.time, p.result.map (fun _ => (resolvedId pf idArg, alloc.1))⟩)) := by
  simp only [registerMember, hpath]

theorem registerMember_eq_of_illegal (m : ZKGroupMembership) (cb : ClientBehavior)
    (pf : Platform) (idArg : JSValue) (dataArg : Option Ref) (store : Store)
    (hpath : getMemberPath m (resolvedId pf idArg) = none) :
    registerMember m cb pf idArg dataArg store =
      Except.ok
        ((match dataArg with
          | some _ => store
          | none => store ++ [[]]),
         [], ⟨0, Except.error illegalMemberIdError⟩) := by
  cases dataArg <;> simp only [registerMember, hpath]

theorem getField_setField (d : Doc) (k : String) (v : JSValue) :
    getField (setField d k v) k = some v := by
  induction d with
  | nil => simp [setField, getField]
  | cons kv rest ih =>
      by_cases h : kv.1 = k
      · simp [setField, getField, h]
      · simp [setField, getField, h, ih]

theorem storeGet_storeSet_self (st : Store) (r : Ref) (d : Doc)
    (h : r < st.length) : storeGet (storeSet st r d) r = d := by
  simp [storeGet, storeSet, List.getD, List.getElem?_set_self, h]

theorem storeGet_storeSet_ne (st : Store) (r r₀ : Ref) (d : Doc)
    (h : r₀ ≠ r) : storeGet (storeSet st r d) r₀ = storeGet st r₀ := by
  simp [storeGet, storeSet, List.getD, List.getElem?_set_ne, Ne.symm h]

/-- The raw error returned by the failing coordination-service client in the
counterexample: the shape a `node-zookeeper-client` exception has. -/
def rawClientError : JSError := ⟨"CONNECTION_LOSS"⟩

/-- A client behavior whose every call fails with `rawClientError` after 1ms. -/
def failingClient : ClientBehavior :=
  ⟨fun _ => ⟨1, Except.error rawClientError⟩,
   fun _ => ⟨1, Except.error rawClientError⟩,
   fun _ _ => ⟨1, Except.error rawClientError⟩,
   fun _ => ⟨1, Except.error rawClientError⟩⟩

/-- C4 counterexample: the claim says a failing `mkdirp` makes `setup()`
reject with a `SetupFailed` error wrapping the cause, "not with the raw
collaborator error" — but on the code, `resolverAsCallback` rejects with the
collaborator's error object itself: at this concrete failing client, the
`setup()` rejection IS the raw client error, unchanged. -/
theorem C4_counterexample :
    (setup (mkZKGroupMembership "/groups/default" none none)
        failingClient).result = Except.error rawClientError ∧
    rawClientError.message = "CONNECTION_LOSS" :=
  ⟨rfl, rfl⟩

/-- C4 (amended): when the underlying coordination-service call fails before
any deadline, each operation rejects with the raw collaborator error itself,
propagated unchanged — no operation-specific wrapping exists; the only
errors the library constructs are Timeout, Illegal member ID and
Disconnected. -/
theorem C4_amended_raw_error_passthrough (m : ZKGroupMembership)
    (cb : ClientBehavior) (e : JSError) :
    ((cb.mkdirp m.groupPath).result = Except.error e →
      beatsDeadline (cb.mkdirp m.groupPath).time m.setupTimeout →
      (setup m cb).result = Except.error e) ∧
    ((cb.getChildren m.groupPath).result = Except.error e →
      beatsDeadline (cb.getChildren m.groupPath).time m.timeout →
      (getMembersSettled m cb).result = Except.error e) ∧
    (∀ (pf : Platform) (idArg : JSValue) (path : String) (dataRef : Ref)
        (store : Store),
      idArg ≠ JSValue.undefined →
      getMemberPath m idArg = some path →
      (∀ pl, (cb.create path pl).result = Except.error e) →
      (∀ pl, beatsDeadline (cb.create path pl).time m.timeout) →
      ∃ out, registerMember m cb pf idArg (some dataRef) store = Except.ok out ∧
        out.2.2.result = Except.error e) ∧
    (∀ (jp : String → Except JSError Doc) (id : JSValue) (path : String),
      getMemberPath m id = some path →
      (cb.getData path).result = Except.error e →
      beatsDeadline (cb.getData path).time m.timeout →
      ∃ out, getMemberData m cb jp id = Except.ok out ∧
        out.2.result = Except.error e) := by
  refine ⟨?_, ?_, ?_, ?_⟩
  · intro h₁ h₂
    simp [setup, withTimeout_beats _ _ h₂, h₁, Except.map]
  · intro h₁ h₂
    rw [getMembersSettled, withTimeout_beats _ _ h₂, h₁]
  · intro pf idArg path dataRef store hne hpath hc hb
    have hp : getMemberPath m (resolvedId pf idArg) = some path := by
      rw [resolvedId_of_ne _ _ hne]; exact hpath
    refine ⟨_, registerMember_eq_of_path m cb pf idArg (some dataRef) store path hp, ?_⟩
    simp only [withTimeout_beats _ _ (hb _), hc]
    rfl
  · intro jp id path hpath h₁ h₂
    refine ⟨([ClientCall.getData path],
      ⟨(withTimeout (cb.getData path) m.timeout).time,
       (withTimeout (cb.getData path) m.timeout).result.bind
         (fun bs => (jp bs.1).map (fun d => (id, d, bs.2)))⟩), ?_, ?_⟩
    · simp only [getMemberData, hpath]
    · simp only [withTimeout_beats _ _ h₂, h₁]
      rfl

/-- Witness for the amended C4 at the concrete failing client: all four
operations reject with the raw client error unchanged. -/
theorem C4_amended_raw_error_passthrough_witness :
    (setup (mkZKGroupMembership "/g" none none) failingClient).result
      = Except.error rawClientError ∧
    (getMembersSettled (mkZKGroupMembership "/g" none none) failingClient).result
      = Except.error rawClientError ∧
    (∃ out, registerMember (mkZKGroupMembership "/g" none none) failingClient
        ⟨"u", 5⟩ (JSValue.str "a") (some 0) [[]] = Except.ok out ∧
        out.2.2.result = Except.error rawClientError) ∧
    (∃ out, getMemberData (mkZKGroupMembership "/g" none none) failingClient
        (fun _ => Except.ok []) (JSValue.str "a") = Except.ok out ∧
        out.2.result = Except.error rawClientError) := by
  have h := C4_amended_raw_error_passthrough (mkZKGroupMembership "/g" none none)
    failingClient rawClientError
  exact ⟨h.1 rfl trivial, h.2.1 rfl trivial,
    h.2.2.1 ⟨"u", 5⟩ (JSValue.str "a") "/g/a" 0 [[]] (by decide) (by decide)
      (fun _ => rfl) (fun _ => trivial),
    h.2.2.2 (fun _ => Except.ok []) (JSValue.str "a") "/g/a" (by decide) rfl trivial⟩

/-- C7: for an id whose coerced string contains the path separator, both
`registerMember` and `getMemberData` return (`.ok`: no synchronous throw) a
promise already rejected with the Illegal member ID error, and issue no call
to the coordination-service client (empty call trace). -/
theorem C7_illegal_id_rejects_without_client_call (m : ZKGroupMembership)
    (cb : ClientBehavior) (pf : Platform) (id : JSValue) (dataArg : Option Ref)
    (store : Store) (jp : String → Except JSError Doc)
    (hne : id ≠ JSValue.undefined)
    (hill : jsIncludes (jsStringOf id) '/' = true) :
    (∃ st, registerMember m cb pf id dataArg store
        = Except.ok (st, [], ⟨0, Except.error illegalMemberIdError⟩)) ∧
    getMemberData m cb jp id
      = Except.ok ([], ⟨0, Except.error illegalMemberIdError⟩) := by
  have hp : getMemberPath m id = none := by
    rw [getMemberPath_eq, hill]
    rfl
  have hp₂ : getMemberPath m (resolvedId pf id) = none := by
    rw [resolvedId_of_ne _ _ hne]; exact hp
  constructor
  · exact ⟨_, registerMember_eq_of_illegal m cb pf id dataArg store hp₂⟩
  · simp only [getMemberData, hp]

/-- Witness for C7: the id `'a/b'` makes both operations reject with the
Illegal member ID error, with an empty client-call trace. -/
theorem C7_illegal_id_rejects_without_client_call_witness :
    (∃ st, registerMember (mkZKGroupMembership "/g" none none) failingClient
        ⟨"u", 5⟩ (JSValue.str "a/b") (some 0) [[]]
        = Except.ok (st, [], ⟨0, Except.error illegalMemberIdError⟩)) ∧
    getMemberData (mkZKGroupMembership "/g" none none) failingClient
        (fun _ => Except.ok []) (JSValue.str "a/b")
      = Except.ok ([], ⟨0, Except.error illegalMemberIdError⟩) :=
  C7_illegal_id_rejects_without_client_call (mkZKGroupMembership "/g" none none)
    failingClient ⟨"u", 5⟩ (JSValue.str "a/b") (some 0) [[]]
    (fun _ => Except.ok []) (by decide) (by decide)

/-- C9: `registerMember` writes `registrationTimeUTC` onto the very object the
caller passed (same reference, other objects untouched), and the `data` in
the resolved `{id, data}` is that same reference, so after resolution the
caller's original object contains `registrationTimeUTC`. -/
theorem C9_registerMember_mutates_caller_data (m : ZKGroupMembership)
    (cb : ClientBehavior) (pf : Platform) (idArg : JSValue) (dataRef : Ref)
    (store : Store) (path : String)
    (hne : idArg ≠ JSValue.undefined)
    (hpath : getMemberPath m idArg = some path)
    (href : dataRef < store.length) :
    ∃ out, registerMember m cb pf idArg (some dataRef) store = Except.ok out ∧
      storeGet out.1 dataRef
        = setField (storeGet store dataRef) "registrationTimeUTC"
            (JSValue.num pf.now) ∧
      getField (storeGet out.1 dataRef) "registrationTimeUTC"
        = some (JSValue.num pf.now) ∧
      (∀ r, r ≠ dataRef → storeGet out.1 r = storeGet store r) ∧
      (∀ idv ref, out.2.2.result = Except.ok (idv, ref) → ref = dataRef) := by
  have hp : getMemberPath m (resolvedId pf idArg) = some path := by
    rw [resolvedId_of_ne _ _ hne]; exact hpath
  refine ⟨_, registerMember_eq_of_path m cb pf idArg (some dataRef) store path hp,
    ?_, ?_, ?_, ?_⟩
  · exact storeGet_storeSet_self store dataRef _ href
  · rw [storeGet_storeSet_self store dataRef _ href]
    exact getField_setField _ _ _
  · intro r hr
    exact storeGet_storeSet_ne store dataRef r _ hr
  · intro idv ref hres
    rcases hres2 : (withTimeout (cb.create path
        (serializeDoc (storeGet (storeSet store dataRef
          (setField (storeGet store dataRef) "registrationTimeUTC"
            (JSValue.num pf.now))) dataRef))) m.timeout).result with e | v
    · rw [hres2] at hres
      exact absurd hres (by simp [Except.map])
    · rw [hres2] at hres
      simp only [Except.map, Except.ok.injEq, Prod.mk.injEq] at hres
      exact hres.2.symm

/-- A client behavior whose every call succeeds after 1ms. -/
def okClient : ClientBehavior :=
  ⟨fun _ => ⟨1, Except.ok ()⟩,
   fun _ => ⟨1, Except.ok ["node-a"]⟩,
   fun _ _ => ⟨1, Except.ok ()⟩,
   fun _ => ⟨1, Except.ok ("\x7b\x7d", 0)⟩⟩

/-- Witness for C9 at a concrete call: registering `'node-a'` with a caller
document `{weight: 1}` mutates that very document. -/
theorem C9_registerMember_mutates_caller_data_witness :
    ∃ out, registerMember (mkZKGroupMembership "/g" none none) okClient
        ⟨"u", 5⟩ (JSValue.str "node-a") (some 0) [[("weight", JSValue.num 1)]]
        = Except.ok out ∧
      storeGet out.1 0
        = setField (storeGet [[("weight", JSValue.num 1)]] 0)
            "registrationTimeUTC" (JSValue.num 5) ∧
      getField (storeGet out.1 0) "registrationTimeUTC"
        = some (JSValue.num 5) ∧
      (∀ r, r ≠ 0 → storeGet out.1 r = storeGet [[("weight", JSValue.num 1)]] r) ∧
      (∀ idv ref, out.2.2.result = Except.ok (idv, ref) → ref = 0) :=
  C9_registerMember_mutates_caller_data (mkZKGroupMembership "/g" none none)
    okClient ⟨"u", 5⟩ (JSValue.str "node-a") 0 [[("weight", JSValue.num 1)]]
    "/g/node-a" (by decide) (by decide) (by decide)

/-- C5: `registerMember()` with the id omitted uses the freshly generated
`uuid()` value as the id; the data defaults to an empty document augmented
with `registrationTimeUTC = Date.now()` — the call instant, hence no earlier
than the call start and no later than the resolution instant — and on
success within the deadline the promise resolves with `{id, data}` where
`data` is the augmented document. -/
theorem C5_registerMember_generated_id (m : ZKGroupMembership)
    (cb : ClientBehavior) (pf : Platform) (store : Store)
    (h : jsIncludes pf.uuid '/' = false) :
    ∃ out, registerMember m cb pf JSValue.undefined none store = Except.ok out ∧
      (∀ idv ref, out.2.2.result = Except.ok (idv, ref) →
        idv = JSValue.str pf.uuid ∧ ref = store.length) ∧
      storeGet out.1 store.length
        = [("registrationTimeUTC", JSValue.num pf.now)] ∧
      getField (storeGet out.1 store.length) "registrationTimeUTC"
        = some (JSValue.num pf.now) ∧
      pf.now ≤ pf.now + out.2.2.time ∧
      ((cb.create (m.groupPath ++ "/" ++ pf.uuid)
            (serializeDoc [("registrationTimeUTC", JSValue.num pf.now)])).result
          = Except.ok () →
        beatsDeadline (cb.create (m.groupPath ++ "/" ++ pf.uuid)
            (serializeDoc [("registrationTimeUTC", JSValue.num pf.now)])).time
          m.timeout →
        out.2.2.result = Except.ok (JSValue.str pf.uuid, store.length)) := by
  have hp : getMemberPath m (resolvedId pf JSValue.undefined)
      = some (m.groupPath ++ "/" ++ pf.uuid) := by
    show getMemberPath m (JSValue.str pf.uuid) = _
    rw [getMemberPath_eq]
    simp [jsStringOf, h]
  have hfresh : storeGet (store ++ [[]]) store.length = ([] : Doc) := by
    simp [storeGet, List.getD]
  have hlen : store.length < (store ++ [([] : Doc)]).length := by
    simp
  have hreg : registerMember m cb pf JSValue.undefined none store =
      Except.ok
        (storeSet (store ++ [[]]) store.length
           [("registrationTimeUTC", JSValue.num pf.now)],
         [ClientCall.create (m.groupPath ++ "/" ++ pf.uuid)
            (serializeDoc [("registrationTimeUTC", JSValue.num pf.now)])],
         ⟨(withTimeout (cb.create (m.groupPath ++ "/" ++ pf.uuid)
              (serializeDoc [("registrationTimeUTC", JSValue.num pf.now)]))
              m.timeout).time,
          (withTimeout (cb.create (m.groupPath ++ "/" ++ pf.uuid)
              (serializeDoc [("registrationTimeUTC", JSValue.num pf.now)]))
              m.timeout).result.map
            (fun _ => (JSValue.str pf.uuid, store.length))⟩) := by
    rw [registerMember_eq_of_path m cb pf JSValue.undefined none store _ hp]
    simp only [hfresh, storeGet_storeSet_self _ _ _ hlen]
    rfl
  refine ⟨_, hreg, ?_, ?_, ?_, ?_, ?_⟩
  · intro idv ref hres
    rcases hres2 : (withTimeout (cb.create (m.groupPath ++ "/" ++ pf.uuid)
        (serializeDoc [("registrationTimeUTC", JSValue.num pf.now)]))
        m.timeout).result with e | v
    · rw [hres2] at hres
      exact absurd hres (by simp [Except.map])
    · rw [hres2] at hres
      simp only [Except.map, Except.ok.injEq, Prod.mk.injEq] at hres
      exact ⟨hres.1.symm, hres.2.symm⟩
  · exact storeGet_storeSet_self _ _ _ hlen
  · rw [storeGet_storeSet_self _ _ _ hlen]
    rfl
  · exact Nat.le_add_right _ _
  · intro hok hbeats
    simp only [withTimeout_beats _ _ hbeats, hok]
    rfl

/-- Witness for C5 at a concrete call: no id, default data, generated uuid
`'u1'`, `Date.now() = 5`. -/
theorem C5_registerMember_generated_id_witness :
    ∃ out, registerMember (mkZKGroupMembership "/g" none none) okClient
        ⟨"u1", 5⟩ JSValue.undefined none [] = Except.ok out ∧
      (∀ idv ref, out.2.2.result = Except.ok (idv, ref) →
        idv = JSValue.str "u1" ∧ ref = 0) ∧
      storeGet out.1 0 = [("registrationTimeUTC", JSValue.num 5)] ∧
      getField (storeGet out.1 0) "registrationTimeUTC"
        = some (JSValue.num 5) ∧
      5 ≤ 5 + out.2.2.time ∧
      ((okClient.create ("/g" ++ "/" ++ "u1")
            (serializeDoc [("registrationTimeUTC", JSValue.num 5)])).result
          = Except.ok () →
        beatsDeadline (okClient.create ("/g" ++ "/" ++ "u1")
            (serializeDoc [("registrationTimeUTC", JSValue.num 5)])).time none →
        out.2.2.result = Except.ok (JSValue.str "u1", 0)) :=
  C5_registerMember_generated_id (mkZKGroupMembership "/g" none none) okClient
    ⟨"u1", 5⟩ [] (by decide)

/-! Trace lemmas for the monitoring machinery. -/

theorem relayBody_eq (s : Sys) (cb : ClientBehavior) :
    relayBody s cb =
      (⟨s.mgr, armWatch s.armed s.mgr.membersChangedListener, s.nextRef⟩,
       [ClientCall.getChildren s.mgr.groupPath s.mgr.membersChangedListener],
       [match (getMembersSettled s.mgr cb).result with
        | Except.ok l => Emitted.members l
        | Except.error e => Emitted.error e]) :=
  rfl

theorem startMonitorSys_some (s : Sys) (cb : ClientBehavior) (r : Nat)
    (h : s.mgr.membersChangedListener = some r) :
    startMonitorSys s cb = (s, [], []) := by
  simp only [startMonitorSys, h]

theorem startMonitorSys_none (s : Sys) (cb : ClientBehavior)
    (h : s.mgr.membersChangedListener = none) :
    startMonitorSys s cb =
      (⟨{ s.mgr with membersChangedListener := some s.nextRef },
        armWatch s.armed (some s.nextRef), s.nextRef + 1⟩,
       [ClientCall.getChildren s.mgr.groupPath (some s.nextRef),
        ClientCall.onState],
       [match (getMembersSettled s.mgr cb).result with
        | Except.ok l => Emitted.members l
        | Except.error e => Emitted.error e]) := by
  simp only [startMonitorSys, h]
  rfl

theorem changeSys_monitored (cb : ClientBehavior) (s : Sys) (r : Nat)
    (hl : s.mgr.membersChangedListener = some r) (ha : s.armed = [r]) :
    changeSys s cb =
      (⟨s.mgr, [r], s.nextRef⟩,
       [ClientCall.getChildren s.mgr.groupPath (some r)],
       [match (getMembersSettled s.mgr cb).result with
        | Except.ok l => Emitted.members l
        | Except.error e => Emitted.error e]) := by
  unfold changeSys
  rw [ha]
  simp [fireArmed, relayBody, getMembersSys, hl, armWatch]

theorem runSys_changes (cb : ClientBehavior) (r : Nat) (N : Nat) :
    ∀ s : Sys, s.mgr.membersChangedListener = some r → s.armed = [r] →
      (runSys cb s (List.replicate N Stimulus.change)).1
          = ⟨s.mgr, [r], s.nextRef⟩ ∧
      (runSys cb s (List.replicate N Stimulus.change)).2.1.count
          ClientCall.onState = 0 ∧
      (runSys cb s (List.replicate N Stimulus.change)).2.2.length = N := by
  induction N with
  | zero =>
      intro s hl ha
      refine ⟨?_, rfl, rfl⟩
      show s = ⟨s.mgr, [r], s.nextRef⟩
      rw [← ha]
  | succ k ih =>
      intro s hl ha
      have hstep := changeSys_monitored cb s r hl ha
      have ihs := ih ⟨s.mgr, [r], s.nextRef⟩ hl rfl
      simp only [List.replicate_succ, runSys, stepSys]
      rw [hstep]
      refine ⟨ihs.1, ?_, ?_⟩
      · simp [List.count_append, List.count_cons, ihs.2.1]
      · simp [ihs.2.2]

/-- C1: once `startMonitor()` installs the relay, `getMembers()` (and hence
every relay invocation) passes the installed relay reference as the watch
callback of `getChildren`, re-arming the one-shot watch on every fetch; the
installation itself invokes the relay exactly once, issuing one watched
`getChildren` call and emitting one initial `members` event on success or one
`error` event on failure. -/
theorem C1_relay_installs_and_rearms (s : Sys) (cb : ClientBehavior) (r : Nat) :
    (s.mgr.membersChangedListener = none →
      startMonitorSys s cb =
        (⟨{ s.mgr with membersChangedListener := some s.nextRef },
          armWatch s.armed (some s.nextRef), s.nextRef + 1⟩,
         [ClientCall.getChildren s.mgr.groupPath (some s.nextRef),
          ClientCall.onState],
         [match (getMembersSettled s.mgr cb).result with
          | Except.ok l => Emitted.members l
          | Except.error e => Emitted.error e])) ∧
    (s.mgr.membersChangedListener = some r →
      relayBody s cb =
        (⟨s.mgr, armWatch s.armed (some r), s.nextRef⟩,
         [ClientCall.getChildren s.mgr.groupPath (some r)],
         [match (getMembersSettled s.mgr cb).result with
          | Except.ok l => Emitted.members l
          | Except.error e => Emitted.error e])) :=
  ⟨fun h => startMonitorSys_none s cb h,
   fun h => by rw [relayBody_eq, h]⟩

/-- Witness for C1: on a fresh Manager with a succeeding client, the first
`startMonitor()` installs relay 0, issues one `getChildren` watched by relay
0 plus the state-listener registration, and emits one initial `members`
event; a later relay invocation issues one `getChildren` again watched by
relay 0. -/
theorem C1_relay_installs_and_rearms_witness :
    startMonitorSys (initSys "/g" none none) okClient
      = (⟨⟨"/g", none, none, some 0⟩, [0], 1⟩,
         [ClientCall.getChildren "/g" (some 0), ClientCall.onState],
         [Emitted.members ["node-a"]]) ∧
    relayBody (⟨⟨"/g", none, none, some 0⟩, [0], 1⟩ : Sys) okClient
      = (⟨⟨"/g", none, none, some 0⟩, [0], 1⟩,
         [ClientCall.getChildren "/g" (some 0)],
         [Emitted.members ["node-a"]]) := by
  have h₁ := C1_relay_installs_and_rearms (initSys "/g" none none) okClient 0
  have h₂ := C1_relay_installs_and_rearms
    (⟨⟨"/g", none, none, some 0⟩, [0], 1⟩ : Sys) okClient 0
  exact ⟨(h₁.1 rfl).trans (by decide), (h₂.2 rfl).trans (by decide)⟩

/-- C3: at most one relay is ever installed — `startMonitor()` on a Manager
whose relay is already installed is a no-op returning the unchanged Manager
(no second relay, no second state listener, no calls, no events); and after
two `startMonitor()` calls followed by N structural changes, at most N+1
`members` events are emitted, exactly one state listener is registered, and
exactly one relay (reference 0) was ever allocated. -/
theorem C3_startMonitor_idempotent (cb : ClientBehavior) (gp : String)
    (t st : Option Nat) (N : Nat) :
    (∀ (s : Sys) (r : Nat), s.mgr.membersChangedListener = some r →
      startMonitorSys s cb = (s, [], [])) ∧
    countMembers (runSys cb (initSys gp t st)
        (Stimulus.startMonitor :: Stimulus.startMonitor ::
          List.replicate N Stimulus.change)).2.2 ≤ N + 1 ∧
    (runSys cb (initSys gp t st)
        (Stimulus.startMonitor :: Stimulus.startMonitor ::
          List.replicate N Stimulus.change)).2.1.count ClientCall.onState = 1 ∧
    (runSys cb (initSys gp t st)
        (Stimulus.startMonitor :: Stimulus.startMonitor ::
          List.replicate N Stimulus.change)).1.nextRef = 1 ∧
    (runSys cb (initSys gp t st)
        (Stimulus.startMonitor :: Stimulus.startMonitor ::
          List.replicate N Stimulus.change)).1.mgr.membersChangedListener
      = some 0 := by
  have h₁ := startMonitorSys_none (initSys gp t st) cb rfl
  have harm : armWatch ([] : List Nat) (some 0) = [0] := by simp [armWatch]
  have h₂ : startMonitorSys (⟨⟨gp, t, st, some 0⟩, [0], 1⟩ : Sys) cb
      = (⟨⟨gp, t, st, some 0⟩, [0], 1⟩, [], []) :=
    startMonitorSys_some _ cb 0 rfl
  obtain ⟨hfin, hcnt, hlen⟩ :=
    runSys_changes cb 0 N ⟨⟨gp, t, st, some 0⟩, [0], 1⟩ rfl rfl
  have hrun : runSys cb (initSys gp t st)
      (Stimulus.startMonitor :: Stimulus.startMonitor ::
        List.replicate N Stimulus.change)
      = ((runSys cb (⟨⟨gp, t, st, some 0⟩, [0], 1⟩ : Sys)
            (List.replicate N Stimulus.change)).1,
         ClientCall.getChildren gp (some 0) :: ClientCall.onState ::
           (runSys cb (⟨⟨gp, t, st, some 0⟩, [0], 1⟩ : Sys)
             (List.replicate N Stimulus.change)).2.1,
         (match (getMembersSettled (mkZKGroupMembership gp t st) cb).result with
          | Except.ok l => Emitted.members l
          | Except.error e => Emitted.error e) ::
           (runSys cb (⟨⟨gp, t, st, some 0⟩, [0], 1⟩ : Sys)
             (List.replicate N Stimulus.change)).2.2) := by
    simp only [runSys, stepSys, h₁, harm, h₂]
    rfl
  refine ⟨fun s r h => startMonitorSys_some s cb r h, ?_, ?_, ?_, ?_⟩
  · rw [hrun]
    calc countMembers ((match (getMembersSettled (mkZKGroupMembership gp t st)
            cb).result with
          | Except.ok l => Emitted.members l
          | Except.error e => Emitted.error e) ::
            (runSys cb (⟨⟨gp, t, st, some 0⟩, [0], 1⟩ : Sys)
              (List.replicate N Stimulus.change)).2.2)
        ≤ ((match (getMembersSettled (mkZKGroupMembership gp t st) cb).result with
          | Except.ok l => Emitted.members l
          | Except.error e => Emitted.error e) ::
            (runSys cb (⟨⟨gp, t, st, some 0⟩, [0], 1⟩ : Sys)
              (List.replicate N Stimulus.change)).2.2).length :=
          List.countP_le_length _
      _ = N + 1 := by simp [hlen]
  · rw [hrun]
    simp [List.count_cons, hcnt]
  · rw [hrun, hfin]
  · rw [hrun, hfin]

/-- Witness for C3 at concrete inputs: a second `startMonitor()` on an
already-monitoring system is a no-op, and the two-start-then-two-changes run
emits at most 3 `members` events, registers one state listener and allocates
one relay. -/
theorem C3_startMonitor_idempotent_witness :
    startMonitorSys (⟨⟨"/g", none, none, some 7⟩, [7], 8⟩ : Sys) okClient
      = (⟨⟨"/g", none, none, some 7⟩, [7], 8⟩, [], []) ∧
    countMembers (runSys okClient (initSys "/g" none none)
        (Stimulus.startMonitor :: Stimulus.startMonitor ::
          List.replicate 2 Stimulus.change)).2.2 ≤ 3 ∧
    (runSys okClient (initSys "/g" none none)
        (Stimulus.startMonitor :: Stimulus.startMonitor ::
          List.replicate 2 Stimulus.change)).2.1.count ClientCall.onState = 1 ∧
    (runSys okClient (initSys "/g" none none)
        (Stimulus.startMonitor :: Stimulus.startMonitor ::
          List.replicate 2 Stimulus.change)).1.nextRef = 1 := by
  have h := C3_startMonitor_idempotent okClient "/g" none none 2
  exact ⟨h.1 _ 7 rfl, h.2.1, h.2.2.1, h.2.2.2.1⟩

theorem getMembersSys_null (s : Sys) (cb : ClientBehavior)
    (h : s.mgr.membersChangedListener = none) :
    getMembersSys s cb
      = (s, [ClientCall.getChildren s.mgr.groupPath none],
         getMembersSettled s.mgr cb) := by
  unfold getMembersSys
  rw [h]
  rfl

theorem runSys_getMembers_null (cb : ClientBehavior) (gp : String)
    (t st : Option Nat) (n : Nat) :
    runSys cb (initSys gp t st) (List.replicate n Stimulus.getMembersCall)
      = (initSys gp t st,
         List.replicate n (ClientCall.getChildren gp none), []) := by
  induction n with
  | zero => rfl
  | succ k ih =>
      simp only [List.replicate_succ, runSys, stepSys]
      rw [getMembersSys_null _ cb rfl, ih]
      simp [List.replicate_succ, initSys, mkZKGroupMembership]

/-- C10: before `startMonitor()` is ever called, the relay field is null
(the constructor initialises it so), every `getMembers()` call passes a null
watch callback to `getChildren`, and no watch is ever armed: any number of
`getMembers()` calls from a fresh Manager leaves the armed-watch set empty
and issues only null-watcher `getChildren` calls. -/
theorem C10_null_watcher_before_monitor (gp : String) (t st : Option Nat)
    (cb : ClientBehavior) (n : Nat) :
    (mkZKGroupMembership gp t st).membersChangedListener = none ∧
    (∀ s : Sys, s.mgr.membersChangedListener = none →
      getMembersSys s cb
        = (s, [ClientCall.getChildren s.mgr.groupPath none],
           getMembersSettled s.mgr cb)) ∧
    runSys cb (initSys gp t st) (List.replicate n Stimulus.getMembersCall)
      = (initSys gp t st,
         List.replicate n (ClientCall.getChildren gp none), []) :=
  ⟨rfl, fun s h => getMembersSys_null s cb h, runSys_getMembers_null cb gp t st n⟩

/-- Witness for C10: a fresh Manager's `getMembers()` passes a null watcher,
arms nothing, and three consecutive calls still leave no watch armed. -/
theorem C10_null_watcher_before_monitor_witness :
    getMembersSys (initSys "/g" none none) okClient
      = (initSys "/g" none none, [ClientCall.getChildren "/g" none],
         getMembersSettled (mkZKGroupMembership "/g" none none) okClient) ∧
    runSys okClient (initSys "/g" none none)
        (List.replicate 3 Stimulus.getMembersCall)
      = (initSys "/g" none none,
         List.replicate 3 (ClientCall.getChildren "/g" none), []) := by
  have h := C10_null_watcher_before_monitor "/g" none none okClient 3
  exact ⟨h.2.1 (initSys "/g" none none) rfl, h.2.2⟩
